import Mathlib

/-!
Verification of the Signal-style end-to-end encryption engine
(`src/signal/{crypto,x3dh,ratchet,protocol}.rs`): X3DH key agreement,
double-ratchet session state machine, fingerprints, addresses, and the
serde-based session persistence.

Byte strings are modelled as `List Nat`; the external cryptographic
primitives (SHA-2, HMAC, HKDF, X25519, Ed25519, AES-256-GCM) are the
fields of a `Crypto` structure, so theorems that depend on their algebraic
contract (X25519 commutativity, AEAD round-trip) state that contract as an
explicit hypothesis.  Randomness (fresh key pairs, current time) is passed
as explicit arguments.
-/

/-- Byte strings (`Vec<u8>` / `[u8; N]`). -/
abbrev Bytes := List Nat

deriving instance DecidableEq for Except

/-- Association-list lookup (`HashMap::get`). -/
def alookup {α β : Type} [DecidableEq α] : List (α × β) → α → Option β
  | [], _ => none
  | (k, v) :: rest, key => if k = key then some v else alookup rest key

/-- Association-list removal (`HashMap::remove` under the unique-key invariant). -/
def aerase {α β : Type} [DecidableEq α] (l : List (α × β)) (key : α) : List (α × β) :=
  l.filter (fun e => decide (e.1 ≠ key))

/-- Association-list insert-or-replace (`HashMap::insert`). -/
def ainsert {α β : Type} [DecidableEq α] (l : List (α × β)) (key : α) (v : β) : List (α × β) :=
  (key, v) :: aerase l key

/-- The X25519 scalar clamp applied in `IdentityKeyPair::dh_agreement`
(`byte[0] &= 248; byte[31] &= 127; byte[31] |= 64`). -/
def clampBytes (b : Bytes) : Bytes :=
  let b1 := b.set 0 ((b.getD 0 0) &&& 248)
  b1.set 31 (((b1.getD 31 0) &&& 127) ||| 64)

/-- Lexicographic byte-wise order, the semantics of Rust's `&str` `<`
used by `calculate_fingerprint` to sort the two identifiers. -/
def lexLt : List Nat → List Nat → Bool
  | [], [] => false
  | [], _ :: _ => true
  | _ :: _, [] => false
  | a :: as, b :: bs => if a < b then true else if b < a then false else lexLt as bs

/-- External cryptographic primitives consumed by the engine
(`signal/crypto.rs` wraps `sha2`, `hmac`, `hkdf`, `x25519-dalek`,
`ed25519-dalek`, `curve25519-dalek` and `aes-gcm`).  Kept abstract as a
structure so that the protocol-level theorems are parametric in them. -/
structure Crypto where
  /-- SHA-256 digest. -/
  sha256 : Bytes → Bytes
  /-- SHA-512 digest. -/
  sha512 : Bytes → Bytes
  /-- `Hmac::<Sha256>` of (key, data). -/
  hmacSha256 : Bytes → Bytes → Bytes
  /-- `Hkdf::<Sha256>::new(Some(salt), ikm).expand(info, len)`:
  arguments (ikm, salt, info, output length). -/
  hkdfExpand : Bytes → Bytes → Bytes → Nat → Bytes
  /-- X25519 scalar multiplication `StaticSecret::diffie_hellman`:
  (private scalar bytes, peer public bytes). -/
  x25519 : Bytes → Bytes → Bytes
  /-- X25519 public key of a private scalar (`PublicKey::from(&secret)`). -/
  x25519Base : Bytes → Bytes
  /-- Ed25519 verifying-key bytes of a signing seed. -/
  edPub : Bytes → Bytes
  /-- Ed25519 signature verification: (public key, message, signature). -/
  edVerify : Bytes → Bytes → Bytes → Bool
  /-- `CompressedEdwardsY::decompress` followed by `to_montgomery`, as in
  `identity_to_x25519`; `none` when decompression fails. -/
  edDecompressMont : Bytes → Option Bytes
  /-- AES-256-GCM encryption (key, nonce, plaintext); total, as
  `SignalCipher::encrypt` cannot fail for a 32-byte key. -/
  aeadEnc : Bytes → Bytes → Bytes → Bytes
  /-- AES-256-GCM decryption (key, nonce, ciphertext); `none` on tag
  mismatch (`SignalCipher::decrypt` error). -/
  aeadDec : Bytes → Bytes → Bytes → Option Bytes

/-- `MAX_SKIP` (ratchet.rs): maximum number of skipped message keys. -/
def MAX_SKIP : Nat := 1000

/-- `NONCE_SIZE` (crypto.rs): AES-GCM nonce length in bytes. -/
def NONCE_SIZE : Nat := 12

/-- The info string `b"WhisperRatchet"` as bytes. -/
def whisperRatchetInfo : Bytes := "WhisperRatchet".toList.map Char.toNat

/-- The info string `b"WhisperMessageKeys"` as bytes. -/
def whisperMessageKeysInfo : Bytes := "WhisperMessageKeys".toList.map Char.toNat

/-- `MessageKeys` (crypto.rs). -/
structure MessageKeys where
  cipher_key : Bytes
  mac_key : Bytes
  iv : Bytes
  next_chain_key : Bytes
deriving DecidableEq, Repr

/-- `SignalHkdf::derive_root_key`: HKDF with ikm = dh output, salt = root
key, info `"WhisperRatchet"`, 64 bytes split into (new root key, chain key). -/
def derive_root_key (c : Crypto) (root_key dh_output : Bytes) : Bytes × Bytes :=
  let output := c.hkdfExpand dh_output root_key whisperRatchetInfo 64
  (output.take 32, output.drop 32)

/-- `SignalHkdf::derive_message_keys`: next chain key = HMAC(ck, 0x02),
seed = HMAC(ck, 0x01), expanded by HKDF (empty salt,
`"WhisperMessageKeys"`) into cipher key (32) ‖ mac key (32) ‖ iv (16). -/
def derive_message_keys (c : Crypto) (chain_key : Bytes) : MessageKeys :=
  let next_chain_key := c.hmacSha256 chain_key [2]
  let message_key_material := c.hmacSha256 chain_key [1]
  let expanded := c.hkdfExpand message_key_material [] whisperMessageKeysInfo 80
  { cipher_key := expanded.take 32
    mac_key := (expanded.drop 32).take 32
    iv := (expanded.drop 64).take 16
    next_chain_key := next_chain_key }

/-- `SkippedKey` (ratchet.rs). -/
structure SkippedKey where
  cipher_key : Bytes
  mac_key : Bytes
  iv : Bytes
  timestamp : Int
deriving DecidableEq, Repr

/-- `MessageHeader` (ratchet.rs). -/
structure MessageHeader where
  dh_ratchet_key : Bytes
  previous_counter : Nat
  message_counter : Nat
deriving DecidableEq, Repr

/-- `RatchetMessage` (ratchet.rs). -/
structure RatchetMessage where
  header : MessageHeader
  ciphertext : Bytes
deriving DecidableEq, Repr

/-- `SessionState` (ratchet.rs).  `dh_self` holds the private key bytes of
our ratchet key pair (its public half is recomputed via `x25519Base`,
exactly as `DhKeyPair::from_private_key` does). -/
structure SessionState where
  dh_self : Bytes
  dh_remote : Option Bytes
  root_key : Bytes
  sending_chain_key : Option Bytes
  receiving_chain_key : Option Bytes
  sending_counter : Nat
  receiving_counter : Nat
  previous_counter : Nat
  skipped_keys : List ((Bytes × Nat) × SkippedKey)
deriving DecidableEq, Repr

/-- `SessionState::initialize_alice`: one immediate DH ratchet step from
the X3DH shared secret; sending chain ready, no receiving chain. -/
def SessionState.initialize_alice (c : Crypto) (shared_secret our_ratchet_key their_ratchet_key : Bytes) :
    SessionState :=
  let dh_output := c.x25519 our_ratchet_key their_ratchet_key
  let rk_ck := derive_root_key c shared_secret dh_output
  { dh_self := our_ratchet_key
    dh_remote := some their_ratchet_key
    root_key := rk_ck.1
    sending_chain_key := some rk_ck.2
    receiving_chain_key := none
    sending_counter := 0
    receiving_counter := 0
    previous_counter := 0
    skipped_keys := [] }

/-- `SessionState::initialize_bob`: shared secret stored as root key, no
chain populated. -/
def SessionState.initialize_bob (shared_secret our_ratchet_key : Bytes) : SessionState :=
  { dh_self := our_ratchet_key
    dh_remote := none
    root_key := shared_secret
    sending_chain_key := none
    receiving_chain_key := none
    sending_counter := 0
    receiving_counter := 0
    previous_counter := 0
    skipped_keys := [] }

/-- `SessionState::encrypt`.  Returns the result together with the state
after the call (the Rust method mutates `self` in place). -/
def SessionState.encrypt (c : Crypto) (st : SessionState) (plaintext : Bytes) :
    Except String RatchetMessage × SessionState :=
  match st.sending_chain_key with
  | none => (.error "No sending chain key available", st)
  | some chain_key =>
    let message_keys := derive_message_keys c chain_key
    let st1 := { st with sending_chain_key := some message_keys.next_chain_key }
    let nonce := message_keys.iv.take NONCE_SIZE
    let ciphertext := c.aeadEnc message_keys.cipher_key nonce plaintext
    let header : MessageHeader :=
      { dh_ratchet_key := c.x25519Base st.dh_self
        previous_counter := st.previous_counter
        message_counter := st.sending_counter }
    let st2 := { st1 with sending_counter := st1.sending_counter + 1 }
    (.ok { header := header, ciphertext := ciphertext }, st2)

/-- The `for i in current..until` loop of `SessionState::skip_message_keys`:
derives and stores `n` successive message keys starting at index `i`,
advancing the chain key.  Returns the final chain key and skipped-key map. -/
def skipLoop (c : Crypto) (now : Int) (dh_key : Bytes) :
    Nat → Nat → Bytes → List ((Bytes × Nat) × SkippedKey) →
    Bytes × List ((Bytes × Nat) × SkippedKey)
  | _, 0, ck, sk => (ck, sk)
  | i, n + 1, ck, sk =>
    let mk := derive_message_keys c ck
    skipLoop c now dh_key (i + 1) n mk.next_chain_key
      (ainsert sk (dh_key, i)
        { cipher_key := mk.cipher_key, mac_key := mk.mac_key, iv := mk.iv, timestamp := now })

/-- `SessionState::skip_message_keys`.  On the `MAX_SKIP` error the state
is unchanged (the bound is checked before the loop mutates anything). -/
def SessionState.skip_message_keys (c : Crypto) (now : Int) (st : SessionState) (untl : Nat) :
    Except String SessionState :=
  match st.receiving_chain_key with
  | none => .ok st
  | some ck =>
    if untl < st.receiving_counter then .ok st
    else if untl - st.receiving_counter > MAX_SKIP then .error "Too many skipped messages"
    else
      match st.dh_remote with
      | none => .ok st
      | some dh_key =>
        let res := skipLoop c now dh_key st.receiving_counter (untl - st.receiving_counter) ck st.skipped_keys
        .ok { st with receiving_chain_key := some res.1, skipped_keys := res.2 }

/-- `SessionState::dh_ratchet`: reset counters, record the remote key,
derive the receiving chain from the old `dh_self`, generate a fresh key
pair (`fresh`, passed explicitly), derive the sending chain from it. -/
def SessionState.dh_ratchet (c : Crypto) (fresh : Bytes) (st : SessionState) (their_key : Bytes) :
    SessionState :=
  let dh_output := c.x25519 st.dh_self their_key
  let rk_recv := derive_root_key c st.root_key dh_output
  let dh_output2 := c.x25519 fresh their_key
  let rk_send := derive_root_key c rk_recv.1 dh_output2
  { st with
    previous_counter := st.sending_counter
    sending_counter := 0
    receiving_counter := 0
    dh_remote := some their_key
    root_key := rk_send.1
    receiving_chain_key := some rk_recv.2
    sending_chain_key := some rk_send.2
    dh_self := fresh }

/-- `SessionState::decrypt`.  Returns the result together with the state
after the call; on an error path the returned state reflects exactly the
mutations the Rust code performed before returning the error. -/
def SessionState.decrypt (c : Crypto) (now : Int) (fresh : Bytes) (st : SessionState)
    (message : RatchetMessage) : Except String Bytes × SessionState :=
  let key_id := (message.header.dh_ratchet_key, message.header.message_counter)
  match alookup st.skipped_keys key_id with
  | some skipped =>
    let st1 := { st with skipped_keys := aerase st.skipped_keys key_id }
    let nonce := skipped.iv.take NONCE_SIZE
    (match c.aeadDec skipped.cipher_key nonce message.ciphertext with
     | some pt => .ok pt
     | none => .error "Decryption failed", st1)
  | none =>
    let their_key := message.header.dh_ratchet_key
    let step : Except String SessionState :=
      if st.dh_remote ≠ some their_key then
        match (if st.receiving_chain_key.isSome then
                 st.skip_message_keys c now message.header.previous_counter
               else .ok st) with
        | .error e => .error e
        | .ok st1 => .ok (st1.dh_ratchet c fresh their_key)
      else .ok st
    match step with
    | .error e => (.error e, st)
    | .ok st2 =>
      match st2.skip_message_keys c now message.header.message_counter with
      | .error e => (.error e, st2)
      | .ok st3 =>
        match st3.receiving_chain_key with
        | none => (.error "No receiving chain key available", st3)
        | some chain_key =>
          let message_keys := derive_message_keys c chain_key
          let st4 := { st3 with
            receiving_chain_key := some message_keys.next_chain_key
            receiving_counter := message.header.message_counter + 1 }
          let nonce := message_keys.iv.take NONCE_SIZE
          (match c.aeadDec message_keys.cipher_key nonce message.ciphertext with
           | some pt => .ok pt
           | none => .error "Decryption failed", st4)

/-- `PreKeyBundle` (crypto.rs).  `identity_key` holds the Ed25519
verifying-key bytes. -/
structure PreKeyBundle where
  registration_id : Nat
  device_id : Nat
  pre_key_id : Option Nat
  pre_key_public : Option Bytes
  signed_pre_key_id : Nat
  signed_pre_key_public : Bytes
  signed_pre_key_signature : Bytes
  identity_key : Bytes
deriving DecidableEq, Repr

/-- `PreKeyBundle::verify`: Ed25519 verification of the signed pre-key
public bytes under the bundle's identity key. -/
def PreKeyBundle.verify (c : Crypto) (b : PreKeyBundle) : Bool :=
  c.edVerify b.identity_key b.signed_pre_key_public b.signed_pre_key_signature

/-- `IdentityKeyPair::dh_agreement`'s private scalar: the first 32 bytes
of SHA-512 of the Ed25519 seed, clamped. -/
def identityDhPriv (c : Crypto) (seed : Bytes) : Bytes :=
  clampBytes ((c.sha512 seed).take 32)

/-- `IdentityKeyPair::dh_agreement`. -/
def identityDhAgreement (c : Crypto) (seed peer_public : Bytes) : Bytes :=
  c.x25519 (identityDhPriv c seed) peer_public

/-- The fallback label `b"X3DH_IDENTITY_CONVERSION"` as bytes. -/
def x3dhConversionLabel : Bytes := "X3DH_IDENTITY_CONVERSION".toList.map Char.toNat

/-- `identity_to_x25519` (x3dh.rs): birational Edwards-to-Montgomery
conversion of the identity public key, with a hash fallback when the
Edwards point fails to decompress. -/
def identity_to_x25519 (c : Crypto) (id_key : Bytes) : Bytes :=
  match c.edDecompressMont id_key with
  | some montgomery => montgomery
  | none => (c.sha256 (x3dhConversionLabel ++ id_key)).take 32

/-- The fixed 32-byte `0xFF` padding prefix of the X3DH KDF input. -/
def x3dhPad : Bytes := List.replicate 32 255

/-- The HKDF info label `b"X3DH"` as bytes. -/
def x3dhInfoLabel : Bytes := "X3DH".toList.map Char.toNat

/-- `kdf` (x3dh.rs): HKDF-SHA256 with an all-zero 32-byte salt and info
`"X3DH"`, producing 32 bytes. -/
def x3dhKdf (c : Crypto) (input : Bytes) : Bytes :=
  c.hkdfExpand input (List.replicate 32 0) x3dhInfoLabel 32

/-- `X3dhResult` (x3dh.rs). -/
structure X3dhResult where
  shared_secret : Bytes
  ephemeral_public_key : Bytes
  used_pre_key_id : Option Nat
deriving DecidableEq, Repr

/-- `x3dh_initiate`.  `our_identity_seed` is the Ed25519 seed of our
identity key pair; `ephemeral_priv` is the freshly generated ephemeral
private key (passed explicitly in place of `DhKeyPair::generate`). -/
def x3dh_initiate (c : Crypto) (our_identity_seed : Bytes) (their_bundle : PreKeyBundle)
    (ephemeral_priv : Bytes) : Except String X3dhResult :=
  if their_bundle.verify c then
    let dh1 := identityDhAgreement c our_identity_seed their_bundle.signed_pre_key_public
    let their_identity_dh := identity_to_x25519 c their_bundle.identity_key
    let dh2 := c.x25519 ephemeral_priv their_identity_dh
    let dh3 := c.x25519 ephemeral_priv their_bundle.signed_pre_key_public
    let base := x3dhPad ++ dh1 ++ dh2 ++ dh3
    match their_bundle.pre_key_public with
    | some opk =>
      .ok { shared_secret := x3dhKdf c (base ++ c.x25519 ephemeral_priv opk)
            ephemeral_public_key := c.x25519Base ephemeral_priv
            used_pre_key_id := their_bundle.pre_key_id }
    | none =>
      .ok { shared_secret := x3dhKdf c base
            ephemeral_public_key := c.x25519Base ephemeral_priv
            used_pre_key_id := none }
  else .error "Signature verification failed"

/-- `x3dh_respond`.  Total: the Rust function's `Result` is always `Ok`. -/
def x3dh_respond (c : Crypto) (our_identity_seed our_signed_pre_key : Bytes)
    (our_one_time_pre_key : Option Bytes) (their_identity_key their_ephemeral_key : Bytes) :
    Bytes :=
  let dh1 := c.x25519 our_signed_pre_key (identity_to_x25519 c their_identity_key)
  let dh2 := identityDhAgreement c our_identity_seed their_ephemeral_key
  let dh3 := c.x25519 our_signed_pre_key their_ephemeral_key
  let base := x3dhPad ++ dh1 ++ dh2 ++ dh3
  match our_one_time_pre_key with
  | some opk => x3dhKdf c (base ++ c.x25519 opk their_ephemeral_key)
  | none => x3dhKdf c base

/-- `InitialMessage` (x3dh.rs).  The wire format carries the serialized
`RatchetMessage` in `encrypted_message`; here the parsed message is
carried directly, since the claims quantify over parsed messages. -/
structure InitialMessage where
  version : Nat
  identity_key : Bytes
  ephemeral_key : Bytes
  pre_key_id : Option Nat
  signed_pre_key_id : Nat
  encrypted_message : RatchetMessage
deriving DecidableEq, Repr

/-- Decimal digits of `n`, least significant first (empty for 0). -/
def digitsRev (n : Nat) : List Nat :=
  if h : n = 0 then []
  else
    have : n / 10 < n := Nat.div_lt_self (Nat.pos_of_ne_zero h) (by decide)
    (n % 10) :: digitsRev (n / 10)

/-- Character of a single decimal digit. -/
def digitChar (d : Nat) : Char := Char.ofNat (48 + d)

/-- Canonical decimal rendering of a `Nat`, the semantics of Rust's
`format!("{}", n)` for unsigned integers. -/
def natToDec (n : Nat) : List Char :=
  if n = 0 then ['0'] else (digitsRev n).reverse.map digitChar

/-- One decimal digit of a character, if any. -/
def parseDigit (ch : Char) : Option Nat :=
  if 48 ≤ ch.toNat ∧ ch.toNat ≤ 57 then some (ch.toNat - 48) else none

/-- Left fold accumulating decimal digits. -/
def foldDigits : Option Nat → List Char → Option Nat
  | acc, [] => acc
  | acc, ch :: rest =>
    match acc, parseDigit ch with
    | some a, some d => foldDigits (some (10 * a + d)) rest
    | _, _ => foldDigits none rest

/-- Rust's `str::parse::<u32>`: optional leading `+`, one or more ASCII
digits, value within `u32` range. -/
def parseU32 (s : List Char) : Option Nat :=
  let t := if s.head? = some '+' then s.tail else s
  if t.isEmpty then none
  else
    match foldDigits (some 0) t with
    | some v => if v < 4294967296 then some v else none
    | none => none

/-- Split a character list at its LAST `'.'`, returning the parts before
and after it; `none` when there is no `'.'`.  This is the effect of
`s.rsplitn(2, '.')` as used by `ProtocolAddress::from_string`. -/
def splitAtLastDot : List Char → Option (List Char × List Char)
  | [] => none
  | ch :: rest =>
    match splitAtLastDot rest with
    | some (pre, post) => some (ch :: pre, post)
    | none => if ch = '.' then some ([], rest) else none

/-- `ProtocolAddress` (protocol.rs). -/
structure ProtocolAddress where
  name : String
  device_id : Nat
deriving DecidableEq, Repr

/-- `ProtocolAddress::to_string`: `format!("{}.{}", name, device_id)`. -/
def ProtocolAddress.to_string (a : ProtocolAddress) : List Char :=
  a.name.toList ++ '.' :: natToDec a.device_id

/-- `ProtocolAddress::from_string`: split at the last `'.'`, parse the
suffix as a `u32` device id. -/
def ProtocolAddress.from_string (s : List Char) : Except String ProtocolAddress :=
  match splitAtLastDot s with
  | none => .error "Invalid address format"
  | some (pre, post) =>
    match parseU32 post with
    | none => .error "invalid digit found in string"
    | some d => .ok { name := ⟨pre⟩, device_id := d }

/-- `SignedPreKey` (crypto.rs); `key_pair` holds the private key bytes. -/
structure SignedPreKey where
  id : Nat
  key_pair : Bytes
  signature : Bytes
  timestamp : Int
deriving DecidableEq, Repr

/-- `SignalProtocol` (protocol.rs): identity, pre-key pool, signed
pre-key, session registry and trusted identities.  Maps are association
lists with unique keys. -/
structure SignalProtocol where
  identity_key : Bytes
  registration_id : Nat
  pre_keys : List (Nat × Bytes)
  next_pre_key_id : Nat
  signed_pre_key : Option SignedPreKey
  sessions : List (ProtocolAddress × SessionState)
  trusted_identities : List (String × Bytes)
deriving DecidableEq, Repr

/-- `SignalProtocol::decrypt_initial`, after `InitialMessage::deserialize`
and `RatchetMessage::deserialize` (the wire parsing is elided; the claims
quantify over parsed messages).  `fresh_bob` is the ratchet key pair
generated for `initialize_bob`; `fresh_ratchet` the one generated inside
`decrypt`'s DH ratchet step.  Returns the result with the protocol state
after the call. -/
def SignalProtocol.decrypt_initial (c : Crypto) (fresh_bob fresh_ratchet : Bytes) (now : Int)
    (p : SignalProtocol) (address : ProtocolAddress) (initial : InitialMessage) :
    Except String Bytes × SignalProtocol :=
  match p.signed_pre_key with
  | none => (.error "No signed pre-key", p)
  | some spk =>
    if spk.id ≠ initial.signed_pre_key_id then (.error "Unknown signed pre-key ID", p)
    else
      let one_time_pre_key : Option Bytes :=
        match initial.pre_key_id with
        | some id => alookup p.pre_keys id
        | none => none
      let shared_secret :=
        x3dh_respond c p.identity_key spk.key_pair one_time_pre_key
          initial.identity_key initial.ephemeral_key
      let session := SessionState.initialize_bob shared_secret fresh_bob
      match SessionState.decrypt c now fresh_ratchet session initial.encrypted_message with
      | (.error e, _) => (.error e, p)
      | (.ok plaintext, session1) =>
        let p1 := { p with
          sessions := ainsert p.sessions address session1
          trusted_identities := ainsert p.trusted_identities address.name initial.identity_key
          pre_keys := match initial.pre_key_id with
            | some id => aerase p.pre_keys id
            | none => p.pre_keys }
        (.ok plaintext, p1)

/-- One 5-digit group of the numeric fingerprint: 5 digest bytes as a
big-endian integer, reduced mod 100000 (crypto.rs lines 538-551). -/
def fingerprintGroup (hash : Bytes) (i : Nat) : Nat :=
  let offset := i * 5 % 30
  let b := fun j => hash.getD ((offset + j) % 32) 0
  (b 0 * 4294967296 + b 1 * 16777216 + b 2 * 65536 + b 3 * 256 + b 4) % 100000

/-- `format!("{:05}", n)` for `n < 100000`: zero-padded to width 5. -/
def pad5 (n : Nat) : List Char :=
  let s := natToDec n
  List.replicate (5 - s.length) '0' ++ s

/-- The digest-and-format part of `calculate_fingerprint`, applied to the
already-ordered (first id, first key, second id, second key) tuple:
initial hash of id‖key‖id‖key, 5199 re-hash rounds mixing in both raw
keys, then 12 space-separated 5-digit groups. -/
def fingerprintOf (c : Crypto) (q : Bytes × Bytes × Bytes × Bytes) : String :=
  let first_id := q.1
  let first_key := q.2.1
  let second_id := q.2.2.1
  let second_key := q.2.2.2
  let h0 := c.sha256 (first_id ++ first_key ++ second_id ++ second_key)
  let hash := (fun h => c.sha256 (h ++ first_key ++ second_key))^[5199] h0
  String.intercalate " " ((List.range 12).map (fun i => ⟨pad5 (fingerprintGroup hash i)⟩))

/-- `calculate_fingerprint` (crypto.rs): sorts the two (identifier, key)
pairs by identifier, then hashes and formats.  Identifiers are byte
strings compared with Rust's `&str` order (`lexLt`). -/
def calculate_fingerprint (c : Crypto) (local_identity local_identifier remote_identity
    remote_identifier : Bytes) : String :=
  let ordered :=
    if lexLt local_identifier remote_identifier then
      (local_identifier, local_identity, remote_identifier, remote_identity)
    else
      (remote_identifier, remote_identity, local_identifier, local_identity)
  fingerprintOf c ordered

/-- JSON values, the target of `serde_json` serialization. -/
inductive Json where
  | null : Json
  | num : Int → Json
  | str : String → Json
  | arr : List Json → Json
  | obj : List (String × Json) → Json

/-- `serialize_bytes` under `serde_json`: a byte array becomes a JSON
array of numbers. -/
def bytesToJson (b : Bytes) : Json := .arr (b.map (fun x => .num x))

/-- An `Option<[u8; 32]>`/`Option<PublicKey>` field: `null` or the byte
array (the serde helpers in ratchet.rs serialize `Some` as bytes). -/
def optBytesToJson : Option Bytes → Json
  | none => .null
  | some b => bytesToJson b

/-- Modelled from serde_json's documented map serialization: each map
entry's key is fed to `serialize_key`, which requires a string-like key;
the `(Vec<u8>, u32)` tuple keys of `skipped_keys` trigger the
"key must be a string" error on the first entry, so a non-empty map fails
and an empty map serializes to `{}`. -/
def skippedMapToJson : List ((Bytes × Nat) × SkippedKey) → Except String Json
  | [] => .ok (.obj [])
  | _ :: _ => .error "key must be a string"

/-- The `#[derive(Serialize)]` output of `SessionState` under
`serde_json`: an object with the fields in declaration order, failing on
the `skipped_keys` map exactly when serde_json's map serializer does. -/
def sessionToJson (st : SessionState) : Except String Json :=
  match skippedMapToJson st.skipped_keys with
  | .error e => .error e
  | .ok skipped =>
    .ok (.obj
      [("dh_self", bytesToJson st.dh_self),
       ("dh_remote", optBytesToJson st.dh_remote),
       ("root_key", bytesToJson st.root_key),
       ("sending_chain_key", optBytesToJson st.sending_chain_key),
       ("receiving_chain_key", optBytesToJson st.receiving_chain_key),
       ("sending_counter", .num st.sending_counter),
       ("receiving_counter", .num st.receiving_counter),
       ("previous_counter", .num st.previous_counter),
       ("skipped_keys", skipped)])

/-- `SessionState::serialize`: `serde_json::to_vec` with the error mapped
to `"Serialization failed: {e}"`.  The JSON value stands for its rendered
byte vector (rendering is injective and immaterial to the claims). -/
def SessionState.serializeState (st : SessionState) : Except String Json :=
  match sessionToJson st with
  | .ok j => .ok j
  | .error e => .error ("Serialization failed: " ++ e)

/-- Toy SHA-512 used to instantiate `Crypto` in witnesses. -/
def toySha512 (b : Bytes) : Bytes := 2 :: b

/-- Toy X25519 shared secret: symmetric in the two scalars, so the
key-exchange contract `x25519 a (base b) = x25519 b (base a)` holds with
`x25519Base` the identity. -/
def toyX25519 (a b : Bytes) : Bytes := [a.sum * b.sum % 251]

/-- Toy AEAD encryption: length-prefixed plaintext with key and nonce
appended as the tag. -/
def toyAeadEnc (k n p : Bytes) : Bytes := p.length :: (p ++ k ++ n)

/-- Toy AEAD decryption: authenticates by checking the appended tag. -/
def toyAeadDec (k n ct : Bytes) : Option Bytes :=
  match ct with
  | [] => none
  | len :: rest =>
    if rest.drop len = k ++ n ∧ len + (k ++ n).length = rest.length then some (rest.take len)
    else none

/-- A concrete `Crypto` instance for witnesses: the primitives are toy
functions satisfying the contracts the theorems assume (X25519
commutativity, Edwards-to-Montgomery compatibility, AEAD round-trip). -/
def toyCrypto : Crypto where
  sha256 b := 1 :: b
  sha512 := toySha512
  hmacSha256 k d := 3 :: (k ++ 0 :: d)
  hkdfExpand ikm salt info len :=
    (List.range len).map (fun i => (i + ikm.sum + 2 * salt.sum + 3 * info.sum) % 256)
  x25519 := toyX25519
  x25519Base a := a
  edPub s := s
  edVerify _ _ _ := true
  edDecompressMont x := some (clampBytes ((toySha512 x).take 32))
  aeadEnc := toyAeadEnc
  aeadDec := toyAeadDec

/-- Session used in the C2 counterexample: remote ratchet key recorded,
receiving chain available. -/
def c2State : SessionState :=
  { dh_self := [1], dh_remote := some [2], root_key := []
    sending_chain_key := none, receiving_chain_key := some [3]
    sending_counter := 0, receiving_counter := 0, previous_counter := 0
    skipped_keys := [] }

/-- Message for the C2 counterexample: matching ratchet key, counter 0,
empty ciphertext (fails AEAD authentication). -/
def c2Message : RatchetMessage :=
  { header := { dh_ratchet_key := [2], previous_counter := 0, message_counter := 0 }
    ciphertext := [] }

/-- Session for the C2 witness and C4 counterexample: remote ratchet key
recorded but no receiving chain key (the state produced by
`initialize_alice` has exactly this shape). -/
def c2WitnessState : SessionState :=
  { dh_self := [1], dh_remote := some [2], root_key := []
    sending_chain_key := some [4], receiving_chain_key := none
    sending_counter := 0, receiving_counter := 0, previous_counter := 0
    skipped_keys := [] }

/-- Message whose counter exceeds the receiving counter by more than
`MAX_SKIP`, with matching ratchet key (C4). -/
def c4Message : RatchetMessage :=
  { header := { dh_ratchet_key := [2], previous_counter := 0, message_counter := 1001 }
    ciphertext := [] }

/-- Session for the C4 witness: like `c2State` but the gap check is
exercised with a receiving chain key present. -/
def c4WitnessState : SessionState :=
  { dh_self := [1], dh_remote := some [2], root_key := []
    sending_chain_key := none, receiving_chain_key := some [3]
    sending_counter := 0, receiving_counter := 0, previous_counter := 0
    skipped_keys := [] }

/-- Session with one stored skipped key (C3 failing input, C9 witness). -/
def skippedExample : SkippedKey :=
  { cipher_key := [7], mac_key := [8], iv := [9], timestamp := 0 }

/-- A session whose skipped-key table is non-empty: the failing input for
session serialization (C3) and the fast-path witness state (C9). -/
def c3State : SessionState :=
  { dh_self := [1], dh_remote := some [2], root_key := [5]
    sending_chain_key := some [4], receiving_chain_key := some [3]
    sending_counter := 2, receiving_counter := 2, previous_counter := 0
    skipped_keys := [(([2], 1), skippedExample)] }

/-- Message hitting the skipped-key fast path of `c3State` (C9 witness). -/
def c9Message : RatchetMessage :=
  { header := { dh_ratchet_key := [2], previous_counter := 0, message_counter := 1 }
    ciphertext := toyAeadEnc [7] ([9].take NONCE_SIZE) [42] }

/-- Extract the message of a successful encryption (used only to name the
concrete messages of the out-of-order witness). -/
def okMsg : Except String RatchetMessage → RatchetMessage
  | .ok m => m
  | .error _ =>
    { header := { dh_ratchet_key := [], previous_counter := 0, message_counter := 0 }
      ciphertext := [] }

/-- Initiator session of the out-of-order witness scenario. -/
def c5Alice0 : SessionState :=
  SessionState.initialize_alice toyCrypto [1] [2] (toyCrypto.x25519Base [3])

/-- First encryption of the out-of-order witness. -/
def c5E0 : Except String RatchetMessage × SessionState :=
  SessionState.encrypt toyCrypto c5Alice0 [21]

/-- Second encryption of the out-of-order witness. -/
def c5E1 : Except String RatchetMessage × SessionState :=
  SessionState.encrypt toyCrypto c5E0.2 [22]

/-- Third encryption of the out-of-order witness. -/
def c5E2 : Except String RatchetMessage × SessionState :=
  SessionState.encrypt toyCrypto c5E1.2 [23]

/-- The three concrete ratchet messages of the out-of-order witness. -/
def c5M0 : RatchetMessage := okMsg c5E0.1

/-- Message with index 1 of the out-of-order witness. -/
def c5M1 : RatchetMessage := okMsg c5E1.1

/-- Message with index 2 of the out-of-order witness. -/
def c5M2 : RatchetMessage := okMsg c5E2.1

/-- Responder protocol state for the C6 scenario: one one-time pre-key
with id 7, signed pre-key id 1. -/
def c6Protocol : SignalProtocol :=
  { identity_key := [2], registration_id := 0
    pre_keys := [(7, [4])], next_pre_key_id := 8
    signed_pre_key := some { id := 1, key_pair := [3], signature := [0], timestamp := 0 }
    sessions := [], trusted_identities := [] }

/-- The initiator address used in the C6 scenario. -/
def c6Address : ProtocolAddress := { name := "alice", device_id := 1 }

/-- Shared secret the responder derives for the first C6 message (the
one-time pre-key with id 7 is present). -/
def c6Shared1 : Bytes := x3dh_respond toyCrypto [2] [3] (some [4]) [10] [11]

/-- Receiving chain key the responder derives while decrypting the first
C6 message (ratchet step with `fresh_bob = [5]` against header key `[12]`). -/
def c6Chain1 : Bytes := (derive_root_key toyCrypto c6Shared1 (toyCrypto.x25519 [5] [12])).2

/-- Message keys for the first C6 message. -/
def c6Keys1 : MessageKeys := derive_message_keys toyCrypto c6Chain1

/-- First initial message of the C6 scenario: references pre-key id 7 and
authenticates under the keys the responder will derive. -/
def c6Initial1 : InitialMessage :=
  { version := 3, identity_key := [10], ephemeral_key := [11]
    pre_key_id := some 7, signed_pre_key_id := 1
    encrypted_message :=
      { header := { dh_ratchet_key := [12], previous_counter := 0, message_counter := 0 }
        ciphertext := toyAeadEnc c6Keys1.cipher_key (c6Keys1.iv.take NONCE_SIZE) [99] } }

/-- Protocol state after the first C6 `decrypt_initial`. -/
def c6Protocol1 : SignalProtocol :=
  (SignalProtocol.decrypt_initial toyCrypto [5] [6] 0 c6Protocol c6Address c6Initial1).2

/-- Shared secret the responder derives for the second C6 message: pre-key
id 7 is no longer in the pool, so X3DH degrades to the pre-key-less form. -/
def c6Shared2 : Bytes := x3dh_respond toyCrypto [2] [3] none [10] [11]

/-- Receiving chain key for the second C6 message (`fresh_bob = [15]`,
header key `[13]`). -/
def c6Chain2 : Bytes := (derive_root_key toyCrypto c6Shared2 (toyCrypto.x25519 [15] [13])).2

/-- Message keys for the second C6 message. -/
def c6Keys2 : MessageKeys := derive_message_keys toyCrypto c6Chain2

/-- Second initial message of the C6 scenario: again references the
already-consumed pre-key id 7, crafted against the degraded secret. -/
def c6Initial2 : InitialMessage :=
  { version := 3, identity_key := [10], ephemeral_key := [11]
    pre_key_id := some 7, signed_pre_key_id := 1
    encrypted_message :=
      { header := { dh_ratchet_key := [13], previous_counter := 0, message_counter := 0 }
        ciphertext := toyAeadEnc c6Keys2.cipher_key (c6Keys2.iv.take NONCE_SIZE) [88] } }

theorem alookup_aerase_self {α β : Type} [DecidableEq α] (l : List (α × β)) (k : α) :
    alookup (aerase l k) k = none := by
  induction l with
  | nil => rfl
  | cons e rest ih =>
    obtain ⟨a, b⟩ := e
    unfold aerase at ih ⊢
    by_cases he : a = k
    · rw [List.filter_cons_of_neg (by simp [he])]
      exact ih
    · rw [List.filter_cons_of_pos (by simp [he])]
      simp only [alookup, if_neg he]
      exact ih

theorem alookup_aerase_ne {α β : Type} [DecidableEq α] (l : List (α × β)) (k k' : α)
    (h : k' ≠ k) : alookup (aerase l k) k' = alookup l k' := by
  induction l with
  | nil => rfl
  | cons e rest ih =>
    obtain ⟨a, b⟩ := e
    unfold aerase at ih ⊢
    by_cases he : a = k
    · rw [List.filter_cons_of_neg (by simp [he])]
      have hne : ¬(a = k') := by rw [he]; exact fun hh => h hh.symm
      simp only [alookup, if_neg hne]
      exact ih
    · rw [List.filter_cons_of_pos (by simp [he])]
      by_cases he' : a = k'
      · simp only [alookup, if_pos he']
      · simp only [alookup, if_neg he']
        exact ih

theorem aerase_of_alookup_none {α β : Type} [DecidableEq α] (l : List (α × β)) (k : α)
    (h : alookup l k = none) : aerase l k = l := by
  induction l with
  | nil => rfl
  | cons e rest ih =>
    obtain ⟨a, b⟩ := e
    simp only [alookup] at h
    by_cases he : a = k
    · rw [if_pos he] at h; simp at h
    · rw [if_neg he] at h
      unfold aerase at ih ⊢
      rw [List.filter_cons_of_pos (by simp [he]), ih h]

theorem skip_message_keys_of_no_chain (c : Crypto) (now : Int) (st : SessionState) (untl : Nat)
    (h : st.receiving_chain_key = none) : st.skip_message_keys c now untl = .ok st := by
  unfold SessionState.skip_message_keys
  rw [h]

theorem skip_message_keys_ok_no_chain_eq (c : Crypto) (now : Int) (st st3 : SessionState)
    (untl : Nat) (h : st.skip_message_keys c now untl = .ok st3)
    (h3 : st3.receiving_chain_key = none) : st3 = st := by
  unfold SessionState.skip_message_keys at h
  split at h
  · cases h; rfl
  · split at h
    · cases h; rfl
    · split at h
      · cases h
      · split at h
        · cases h; rfl
        · cases h
          simp at h3

theorem decrypt_main_path (c : Crypto) (now : Int) (fresh : Bytes) (st : SessionState)
    (msg : RatchetMessage)
    (hlk : alookup st.skipped_keys (msg.header.dh_ratchet_key, msg.header.message_counter) = none)
    (hrem : st.dh_remote = some msg.header.dh_ratchet_key) :
    SessionState.decrypt c now fresh st msg =
      match st.skip_message_keys c now msg.header.message_counter with
      | .error e => (.error e, st)
      | .ok st3 =>
        match st3.receiving_chain_key with
        | none => (.error "No receiving chain key available", st3)
        | some chain_key =>
          let message_keys := derive_message_keys c chain_key
          let st4 := { st3 with
            receiving_chain_key := some message_keys.next_chain_key
            receiving_counter := msg.header.message_counter + 1 }
          let nonce := message_keys.iv.take NONCE_SIZE
          (match c.aeadDec message_keys.cipher_key nonce msg.ciphertext with
           | some pt => .ok pt
           | none => .error "Decryption failed", st4) := by
  unfold SessionState.decrypt
  simp only [hlk, hrem]
  simp

/-- C2 (counterexample): a message with a matching ratchet key whose AEAD
authentication fails makes `SessionState::decrypt` return an error while
leaving the receiving chain key and receiving counter already advanced —
the session state after the failing call differs from the state before. -/
theorem c2_decrypt_error_mutates_state :
    (SessionState.decrypt toyCrypto 0 [] c2State c2Message).1 = .error "Decryption failed" ∧
    (SessionState.decrypt toyCrypto 0 [] c2State c2Message).2 ≠ c2State ∧
    ((SessionState.decrypt toyCrypto 0 [] c2State c2Message).2).receiving_counter = 1 := by
  decide

/-- C2 (amended): when `SessionState::decrypt` fails with the skip-bound
error or the missing-receiving-chain error without having performed a DH
ratchet step (the header's ratchet key equals the recorded remote key),
the session state after the call equals the state before the call.  (An
AEAD authentication failure, by contrast, leaves the chain key and
counter advanced, as the counterexample shows.) -/
theorem decrypt_error_without_ratchet_preserves_state (c : Crypto) (now : Int) (fresh : Bytes)
    (st : SessionState) (msg : RatchetMessage)
    (hrem : st.dh_remote = some msg.header.dh_ratchet_key)
    (herr : (SessionState.decrypt c now fresh st msg).1 = .error "Too many skipped messages" ∨
            (SessionState.decrypt c now fresh st msg).1 = .error "No receiving chain key available") :
    (SessionState.decrypt c now fresh st msg).2 = st := by
  cases hlk : alookup st.skipped_keys (msg.header.dh_ratchet_key, msg.header.message_counter) with
  | some sk =>
    exfalso
    unfold SessionState.decrypt at herr
    simp only [hlk] at herr
    cases hdec : c.aeadDec sk.cipher_key (sk.iv.take NONCE_SIZE) msg.ciphertext with
    | some pt => simp [hdec] at herr
    | none => simp [hdec] at herr
  | none =>
    rw [decrypt_main_path c now fresh st msg hlk hrem] at herr ⊢
    cases hsk : st.skip_message_keys c now msg.header.message_counter with
    | error e => simp [hsk]
    | ok st3 =>
      cases hck : st3.receiving_chain_key with
      | none =>
        simp only [hsk, hck]
        exact skip_message_keys_ok_no_chain_eq c now st st3 _ hsk hck
      | some ck =>
        exfalso
        simp only [hsk, hck] at herr
        cases hdec : c.aeadDec (derive_message_keys c ck).cipher_key
            ((derive_message_keys c ck).iv.take NONCE_SIZE) msg.ciphertext with
        | some pt => simp [hdec] at herr
        | none => simp [hdec] at herr

/-- C2 (witness): concrete instance of the amended theorem — a session
with a recorded remote key but no receiving chain, where decrypt fails
with the missing-receiving-chain error and the state is unchanged. -/
theorem decrypt_error_without_ratchet_preserves_state_witness :
    (SessionState.decrypt toyCrypto 0 [] c2WitnessState c2Message).2 = c2WitnessState :=
  decrypt_error_without_ratchet_preserves_state toyCrypto 0 [] c2WitnessState c2Message rfl
    (Or.inr (by decide))

/-- C3: any session whose skipped-key table is non-empty cannot be
serialized at all — `serde_json` rejects the `(Vec<u8>, u32)` map keys of
`skipped_keys`, so `SessionState::serialize` returns the
"key must be a string" error instead of round-tripping. -/
theorem serialize_fails_on_nonempty_skipped :
    c3State.skipped_keys ≠ [] ∧
    SessionState.serializeState c3State = .error "Serialization failed: key must be a string" := by
  exact ⟨by decide, rfl⟩

/-- C4 (counterexample): in a session with a recorded remote key but no
receiving chain key (the exact shape `initialize_alice` produces), a
message whose counter exceeds the receiving counter by more than
`MAX_SKIP` is rejected with the missing-receiving-chain error, not with
`TooManySkippedMessages`. -/
theorem c4_wrong_error_without_chain :
    c4Message.header.message_counter > c2WitnessState.receiving_counter + MAX_SKIP ∧
    c2WitnessState.dh_remote = some c4Message.header.dh_ratchet_key ∧
    alookup c2WitnessState.skipped_keys
      (c4Message.header.dh_ratchet_key, c4Message.header.message_counter) = none ∧
    (SessionState.decrypt toyCrypto 0 [] c2WitnessState c4Message).1 ≠
      .error "Too many skipped messages" ∧
    (SessionState.decrypt toyCrypto 0 [] c2WitnessState c4Message).1 =
      .error "No receiving chain key available" := by
  decide

/-- C4 (amended): with a receiving chain key present, a matching remote
key and no stored skipped key, a message whose counter exceeds
`receiving_counter + MAX_SKIP` is rejected with `TooManySkippedMessages`
and the entire session state — in particular the receiving counter — is
unchanged. -/
theorem decrypt_skip_bound_enforced (c : Crypto) (now : Int) (fresh : Bytes)
    (st : SessionState) (msg : RatchetMessage) (ck : Bytes)
    (hlk : alookup st.skipped_keys (msg.header.dh_ratchet_key, msg.header.message_counter) = none)
    (hrem : st.dh_remote = some msg.header.dh_ratchet_key)
    (hck : st.receiving_chain_key = some ck)
    (hgap : st.receiving_counter + MAX_SKIP < msg.header.message_counter) :
    SessionState.decrypt c now fresh st msg = (.error "Too many skipped messages", st) := by
  rw [decrypt_main_path c now fresh st msg hlk hrem]
  have hskip : st.skip_message_keys c now msg.header.message_counter =
      .error "Too many skipped messages" := by
    unfold SessionState.skip_message_keys
    simp only [hck]
    have h1 : ¬(msg.header.message_counter < st.receiving_counter) := by omega
    have h2 : msg.header.message_counter - st.receiving_counter > MAX_SKIP := by omega
    rw [if_neg h1, if_pos h2]
  rw [hskip]

/-- C4 (witness): concrete instance of the amended bound-enforcement
theorem with a receiving chain key present. -/
theorem decrypt_skip_bound_enforced_witness :
    SessionState.decrypt toyCrypto 0 [] c4WitnessState c4Message =
      (.error "Too many skipped messages", c4WitnessState) :=
  decrypt_skip_bound_enforced toyCrypto 0 [] c4WitnessState c4Message [3] rfl rfl rfl (by decide)

/-- C8: with a sending chain key, `SessionState::encrypt` succeeds and
returns a message whose header carries the current public ratchet key,
the pre-call `previous_counter` and the pre-call `sending_counter`; the
post state has the sending counter incremented by one and the sending
chain key advanced one symmetric-ratchet step, all other fields
unchanged.  Without a sending chain key it fails with the
no-sending-chain error and leaves the state unchanged. -/
theorem encrypt_spec (c : Crypto) (st : SessionState) (plaintext : Bytes) :
    (st.sending_chain_key = none →
      SessionState.encrypt c st plaintext = (.error "No sending chain key available", st)) ∧
    (∀ ck, st.sending_chain_key = some ck →
      SessionState.encrypt c st plaintext =
        (.ok { header := { dh_ratchet_key := c.x25519Base st.dh_self
                           previous_counter := st.previous_counter
                           message_counter := st.sending_counter }
               ciphertext := c.aeadEnc (derive_message_keys c ck).cipher_key
                 ((derive_message_keys c ck).iv.take NONCE_SIZE) plaintext }
         , { st with sending_chain_key := some (derive_message_keys c ck).next_chain_key
                     sending_counter := st.sending_counter + 1 })) := by
  constructor
  · intro h; unfold SessionState.encrypt; rw [h]
  · intro ck h; unfold SessionState.encrypt; rw [h]

/-- C8 (witness): the no-chain error on a concrete chainless session, and
the success shape on a concrete session with a sending chain key. -/
theorem encrypt_spec_witness :
    SessionState.encrypt toyCrypto c2State [7] = (.error "No sending chain key available", c2State) ∧
    (SessionState.encrypt toyCrypto c2WitnessState [7]).2.sending_counter = 1 ∧
    ∀ m, (SessionState.encrypt toyCrypto c2WitnessState [7]).1 = .ok m →
      m.header.message_counter = 0 := by
  refine ⟨(encrypt_spec toyCrypto c2State [7]).1 rfl, ?_, ?_⟩
  · rw [(encrypt_spec toyCrypto c2WitnessState [7]).2 [4] rfl]
    rfl
  · intro m hm
    rw [(encrypt_spec toyCrypto c2WitnessState [7]).2 [4] rfl] at hm
    cases hm
    rfl

/-- C9: when the `(header ratchet key, header counter)` pair is present in
the skipped-key table, `SessionState::decrypt` takes the fast path: the
result is exactly the AEAD outcome under the stored key — success or
failure — and the post state differs from the pre state only by the
removal of exactly that table entry (every other key still looks up to
the same value; root key, chain keys, `dh_self`, `dh_remote` and all
three counters are untouched, as the record update shows). -/
theorem decrypt_skipped_fast_path (c : Crypto) (now : Int) (fresh : Bytes)
    (st : SessionState) (msg : RatchetMessage) (sk : SkippedKey)
    (h : alookup st.skipped_keys (msg.header.dh_ratchet_key, msg.header.message_counter) = some sk) :
    SessionState.decrypt c now fresh st msg =
      ((match c.aeadDec sk.cipher_key (sk.iv.take NONCE_SIZE) msg.ciphertext with
        | some pt => .ok pt
        | none => .error "Decryption failed")
       , { st with skipped_keys :=
             aerase st.skipped_keys (msg.header.dh_ratchet_key, msg.header.message_counter) }) ∧
    alookup ((SessionState.decrypt c now fresh st msg).2).skipped_keys
      (msg.header.dh_ratchet_key, msg.header.message_counter) = none ∧
    (∀ kid, kid ≠ (msg.header.dh_ratchet_key, msg.header.message_counter) →
      alookup ((SessionState.decrypt c now fresh st msg).2).skipped_keys kid =
        alookup st.skipped_keys kid) := by
  have hmain : SessionState.decrypt c now fresh st msg =
      ((match c.aeadDec sk.cipher_key (sk.iv.take NONCE_SIZE) msg.ciphertext with
        | some pt => .ok pt
        | none => .error "Decryption failed")
       , { st with skipped_keys :=
             aerase st.skipped_keys (msg.header.dh_ratchet_key, msg.header.message_counter) }) := by
    unfold SessionState.decrypt
    simp only [h]
  refine ⟨hmain, ?_, ?_⟩
  · rw [hmain]
    exact alookup_aerase_self _ _
  · intro kid hk
    rw [hmain]
    exact alookup_aerase_ne _ _ _ hk

/-- C9 (witness): the fast path on a concrete session holding one skipped
key — the stored entry is consumed and the message decrypts from it. -/
theorem decrypt_skipped_fast_path_witness :
    (SessionState.decrypt toyCrypto 0 [] c3State c9Message).1 = .ok [42] ∧
    ((SessionState.decrypt toyCrypto 0 [] c3State c9Message).2).skipped_keys = [] := by
  have h := decrypt_skipped_fast_path toyCrypto 0 [] c3State c9Message skippedExample (by decide)
  constructor
  · rw [h.1]; decide
  · rw [h.1]; decide

theorem lexLt_asymm (a b : List Nat) (h : lexLt a b = true) : lexLt b a = false := by
  induction a generalizing b with
  | nil =>
    cases b with
    | nil => simp [lexLt] at h
    | cons y bs => rfl
  | cons x as ih =>
    cases b with
    | nil => simp [lexLt] at h
    | cons y bs =>
      unfold lexLt at h ⊢
      by_cases hxy : x < y
      · rw [if_pos hxy] at h
        rw [if_neg (Nat.lt_asymm hxy), if_pos hxy]
      · rw [if_neg hxy] at h
        by_cases hyx : y < x
        · rw [if_pos hyx] at h
          cases h
        · rw [if_neg hyx] at h
          rw [if_neg hyx, if_neg hxy]
          exact ih bs h

theorem lexLt_connex (a b : List Nat) (hne : a ≠ b) (h : lexLt a b = false) :
    lexLt b a = true := by
  induction a generalizing b with
  | nil =>
    cases b with
    | nil => exact absurd rfl hne
    | cons y bs => simp [lexLt] at h
  | cons x as ih =>
    cases b with
    | nil => rfl
    | cons y bs =>
      unfold lexLt at h ⊢
      by_cases hxy : x < y
      · rw [if_pos hxy] at h
        cases h
      · rw [if_neg hxy] at h
        by_cases hyx : y < x
        · rw [if_pos hyx]
        · rw [if_neg hyx] at h
          rw [if_neg hyx, if_neg hxy]
          have hxyeq : x = y := Nat.le_antisymm (Nat.le_of_not_lt hyx) (Nat.le_of_not_lt hxy)
          have hasbs : as ≠ bs := fun he => hne (by rw [hxyeq, he])
          exact ih bs hasbs h

/-- C7: `calculate_fingerprint` is invariant under swapping the local and
remote (key, identifier) arguments whenever the two identifiers differ:
the function orders the pairs by identifier before hashing, so both
parties compute the same safety number. -/
theorem calculate_fingerprint_symm (c : Crypto) (aKey aId bKey bId : Bytes) (h : aId ≠ bId) :
    calculate_fingerprint c aKey aId bKey bId = calculate_fingerprint c bKey bId aKey aId := by
  unfold calculate_fingerprint
  cases hab : lexLt aId bId with
  | true => simp only [hab, lexLt_asymm aId bId hab, Bool.false_eq_true, if_false, if_true]
  | false => simp only [hab, lexLt_connex aId bId h hab, Bool.false_eq_true, if_false, if_true]

/-- C7 (witness): concrete distinct identifiers. -/
theorem calculate_fingerprint_symm_witness :
    calculate_fingerprint toyCrypto [3] [1] [4] [2] = calculate_fingerprint toyCrypto [4] [2] [3] [1] :=
  calculate_fingerprint_symm toyCrypto [3] [1] [4] [2] (by decide)

theorem digitsRev_zero : digitsRev 0 = [] := by
  unfold digitsRev
  rfl

theorem digitsRev_pos (n : Nat) (h : n ≠ 0) : digitsRev n = (n % 10) :: digitsRev (n / 10) := by
  rw [digitsRev]
  simp [h]

theorem digitsRev_lt_ten (n : Nat) : ∀ d ∈ digitsRev n, d < 10 := by
  induction n using Nat.strong_induction_on with
  | _ n ih =>
    by_cases h : n = 0
    · subst h
      rw [digitsRev_zero]
      intro d hd
      cases hd
    · rw [digitsRev_pos n h]
      intro d hd
      rcases List.mem_cons.1 hd with h1 | h2
      · subst h1
        exact Nat.mod_lt _ (by decide)
      · exact ih (n / 10) (Nat.div_lt_self (Nat.pos_of_ne_zero h) (by decide)) d h2

theorem digitsRev_foldl (n : Nat) : ∀ a : Nat,
    ((digitsRev n).reverse).foldl (fun acc d => 10 * acc + d) a =
      a * 10 ^ (digitsRev n).length + n := by
  induction n using Nat.strong_induction_on with
  | _ n ih =>
    intro a
    by_cases h : n = 0
    · subst h
      rw [digitsRev_zero]
      simp
    · rw [digitsRev_pos n h, List.reverse_cons, List.foldl_append,
        ih (n / 10) (Nat.div_lt_self (Nat.pos_of_ne_zero h) (by decide)) a]
      simp only [List.foldl_cons, List.foldl_nil, List.length_cons]
      rw [pow_succ, ← Nat.mul_assoc]
      generalize a * 10 ^ (digitsRev (n / 10)).length = A
      omega

theorem parseDigit_digitChar (d : Nat) (h : d < 10) : parseDigit (digitChar d) = some d := by
  interval_cases d <;> rfl

theorem digitChar_ne_dot (d : Nat) (h : d < 10) : digitChar d ≠ '.' := by
  interval_cases d <;> decide

theorem digitChar_ne_plus (d : Nat) (h : d < 10) : digitChar d ≠ '+' := by
  interval_cases d <;> decide

theorem foldDigits_map (ds : List Nat) (h : ∀ d ∈ ds, d < 10) : ∀ a : Nat,
    foldDigits (some a) (ds.map digitChar) =
      some (ds.foldl (fun acc d => 10 * acc + d) a) := by
  induction ds with
  | nil => intro a; rfl
  | cons d ds' ih =>
    intro a
    simp only [List.map_cons, foldDigits, parseDigit_digitChar d (h d (List.mem_cons_self _ _))]
    exact ih (fun x hx => h x (List.mem_cons_of_mem _ hx)) (10 * a + d)

theorem natToDec_no_dot (n : Nat) : ∀ ch ∈ natToDec n, ch ≠ '.' := by
  unfold natToDec
  by_cases h : n = 0
  · simp only [if_pos h]
    intro ch hch
    rcases List.mem_singleton.1 hch with rfl
    decide
  · simp only [if_neg h]
    intro ch hch
    obtain ⟨d, hd, rfl⟩ := List.mem_map.1 hch
    exact digitChar_ne_dot d (digitsRev_lt_ten n d (List.mem_reverse.1 hd))

theorem parseU32_natToDec (n : Nat) (h : n < 4294967296) : parseU32 (natToDec n) = some n := by
  by_cases h0 : n = 0
  · subst h0; decide
  · have hchars : natToDec n = (digitsRev n).reverse.map digitChar := by
      unfold natToDec; rw [if_neg h0]
    have hne : digitsRev n ≠ [] := by
      rw [digitsRev_pos n h0]; simp
    have hmapne : (digitsRev n).reverse.map digitChar ≠ [] := by
      simp [hne]
    obtain ⟨ch, rest, hcr⟩ := List.exists_cons_of_ne_nil hmapne
    have hmem : ch ∈ (digitsRev n).reverse.map digitChar := by
      rw [hcr]; exact List.mem_cons_self _ _
    obtain ⟨d, hd, hchd⟩ := List.mem_map.1 hmem
    have hplus : ch ≠ '+' := by
      rw [← hchd]
      exact digitChar_ne_plus d (digitsRev_lt_ten n d (List.mem_reverse.1 hd))
    have hhead : ((digitsRev n).reverse.map digitChar).head? ≠ some '+' := by
      rw [hcr]
      simp only [List.head?_cons]
      exact fun hh => hplus (Option.some.inj hh)
    unfold parseU32
    rw [hchars, if_neg hhead]
    have hempty : ((digitsRev n).reverse.map digitChar).isEmpty = false := by
      rw [hcr]; rfl
    simp only [hempty, Bool.false_eq_true, if_false]
    rw [foldDigits_map _ (fun d hd => digitsRev_lt_ten n d (List.mem_reverse.1 hd)) 0,
      digitsRev_foldl n 0]
    simp only [Nat.zero_mul, Nat.zero_add]
    rw [if_pos h]

theorem splitAtLastDot_of_no_dot (s : List Char) (h : ∀ ch ∈ s, ch ≠ '.') :
    splitAtLastDot s = none := by
  induction s with
  | nil => rfl
  | cons ch rest ih =>
    unfold splitAtLastDot
    rw [ih (fun c hc => h c (List.mem_cons_of_mem _ hc)),
      if_neg (h ch (List.mem_cons_self _ _))]

theorem splitAtLastDot_append (pre post : List Char) (h : ∀ ch ∈ post, ch ≠ '.') :
    splitAtLastDot (pre ++ '.' :: post) = some (pre, post) := by
  induction pre with
  | nil =>
    simp only [List.nil_append]
    unfold splitAtLastDot
    rw [splitAtLastDot_of_no_dot post h, if_pos rfl]
  | cons ch pre' ih =>
    simp only [List.cons_append]
    unfold splitAtLastDot
    rw [ih]

/-- C10: for every `ProtocolAddress` — any name, including names
containing `'.'`, and any `u32` device id — `from_string ∘ to_string` is
the identity: the string form splits at the last `'.'`, the device-id
digits contain no `'.'`, and the canonical decimal parses back to the
same value. -/
theorem address_roundtrip (a : ProtocolAddress) (h : a.device_id < 4294967296) :
    ProtocolAddress.from_string (ProtocolAddress.to_string a) = .ok a := by
  unfold ProtocolAddress.to_string ProtocolAddress.from_string
  rw [splitAtLastDot_append _ _ (natToDec_no_dot a.device_id)]
  simp only [parseU32_natToDec a.device_id h]
  rfl

/-- C10 (witness): a name containing a dot round-trips. -/
theorem address_roundtrip_witness :
    ProtocolAddress.from_string
        (ProtocolAddress.to_string { name := "a.b", device_id := 5 }) =
      .ok { name := "a.b", device_id := 5 } :=
  address_roundtrip { name := "a.b", device_id := 5 } (by decide)

theorem toy_x25519_comm (a b : Bytes) :
    toyCrypto.x25519 a (toyCrypto.x25519Base b) = toyCrypto.x25519 b (toyCrypto.x25519Base a) := by
  simp [toyCrypto, toyX25519, Nat.mul_comm]

theorem toy_conv (s : Bytes) :
    toyCrypto.edDecompressMont (toyCrypto.edPub s) =
      some (toyCrypto.x25519Base (identityDhPriv toyCrypto s)) := rfl

theorem toy_aead_roundtrip (k n p : Bytes) :
    toyCrypto.aeadDec k n (toyCrypto.aeadEnc k n p) = some p := by
  show toyAeadDec k n (toyAeadEnc k n p) = some p
  unfold toyAeadDec toyAeadEnc
  rw [List.append_assoc]
  simp

/-- C1: given the X25519 key-exchange contract of the library
(`x25519 a (base b) = x25519 b (base a)`) and the compatibility of the
two identity-key conversions (`CompressedEdwardsY::decompress ∘
to_montgomery` of an Ed25519 public key yields the X25519 public key of
the hash-clamped private scalar), `x3dh_initiate` on a valid bundle built
from the responder's keys succeeds and returns exactly the shared secret
that `x3dh_respond` computes from the matching private halves, the
initiator's identity public key and the ephemeral public key output by
initiate — with or without a one-time pre-key. -/
theorem x3dh_agreement (c : Crypto)
    (hcomm : ∀ a b, c.x25519 a (c.x25519Base b) = c.x25519 b (c.x25519Base a))
    (hconv : ∀ s, c.edDecompressMont (c.edPub s) = some (c.x25519Base (identityDhPriv c s)))
    (alice_seed bob_seed spk_priv eph_priv sig : Bytes) (opk : Option (Nat × Bytes))
    (reg_id dev_id spk_id : Nat) (bundle : PreKeyBundle)
    (hb : bundle = { registration_id := reg_id, device_id := dev_id
                     pre_key_id := opk.map Prod.fst
                     pre_key_public := opk.map (fun o => c.x25519Base o.2)
                     signed_pre_key_id := spk_id
                     signed_pre_key_public := c.x25519Base spk_priv
                     signed_pre_key_signature := sig
                     identity_key := c.edPub bob_seed })
    (hver : c.edVerify (c.edPub bob_seed) (c.x25519Base spk_priv) sig = true) :
    x3dh_initiate c alice_seed bundle eph_priv =
      .ok { shared_secret := x3dh_respond c bob_seed spk_priv (opk.map Prod.snd)
              (c.edPub alice_seed) (c.x25519Base eph_priv)
            ephemeral_public_key := c.x25519Base eph_priv
            used_pre_key_id := opk.map Prod.fst } := by
  subst hb
  cases opk with
  | none =>
    unfold x3dh_initiate x3dh_respond PreKeyBundle.verify identityDhAgreement identity_to_x25519
    simp only [Option.map_none', hconv, hver, if_true]
    rw [hcomm (identityDhPriv c alice_seed) spk_priv,
      hcomm eph_priv (identityDhPriv c bob_seed),
      hcomm eph_priv spk_priv]
  | some o =>
    unfold x3dh_initiate x3dh_respond PreKeyBundle.verify identityDhAgreement identity_to_x25519
    simp only [Option.map_some', hconv, hver, if_true]
    rw [hcomm (identityDhPriv c alice_seed) spk_priv,
      hcomm eph_priv (identityDhPriv c bob_seed),
      hcomm eph_priv spk_priv,
      hcomm eph_priv o.2]

/-- C1 (witness): the agreement at concrete key material (with a one-time
pre-key present), under the toy primitives satisfying the contracts. -/
theorem x3dh_agreement_witness :
    x3dh_initiate toyCrypto [1]
        { registration_id := 9, device_id := 1
          pre_key_id := some 7, pre_key_public := some [4]
          signed_pre_key_id := 1, signed_pre_key_public := [3]
          signed_pre_key_signature := [0], identity_key := [2] } [5] =
      .ok { shared_secret := x3dh_respond toyCrypto [2] [3] (some [4]) [1] [5]
            ephemeral_public_key := [5]
            used_pre_key_id := some 7 } :=
  x3dh_agreement toyCrypto toy_x25519_comm toy_conv [1] [2] [3] [5] [0] (some (7, [4]))
    9 1 1 _ rfl rfl

/-- C6 (counterexample): after a successful `decrypt_initial` consuming
pre-key id 7, a second `decrypt_initial` whose message references the
same id 7 does NOT fail: the missing pre-key silently degrades X3DH to
the pre-key-less form, and a message built against that degraded secret
decrypts successfully. -/
theorem c6_second_use_can_succeed :
    c6Initial1.pre_key_id = some 7 ∧
    (SignalProtocol.decrypt_initial toyCrypto [5] [6] 0 c6Protocol c6Address c6Initial1).1 =
      .ok [99] ∧
    c6Initial2.pre_key_id = some 7 ∧
    (SignalProtocol.decrypt_initial toyCrypto [15] [16] 0 c6Protocol1 c6Address c6Initial2).1 =
      .ok [88] := by
  refine ⟨rfl, by decide, rfl, by decide⟩

/-- C6 (amended): (a) after a successful `decrypt_initial` whose message
references one-time pre-key id `k`, the pre-key with id `k` is absent
from the pool; (b) a later `decrypt_initial` referencing an id absent
from the pool never reuses the consumed pre-key — it behaves exactly as
if the message referenced no one-time pre-key at all (silent degradation
to pre-key-less X3DH; it is not guaranteed to fail). -/
theorem decrypt_initial_consumes_pre_key (c : Crypto) (fresh_bob fresh_ratchet : Bytes)
    (now : Int) (p : SignalProtocol) (address : ProtocolAddress) (initial : InitialMessage)
    (k : Nat) :
    (∀ res p', SignalProtocol.decrypt_initial c fresh_bob fresh_ratchet now p address initial =
        (.ok res, p') → initial.pre_key_id = some k → alookup p'.pre_keys k = none) ∧
    (alookup p.pre_keys k = none → initial.pre_key_id = some k →
      SignalProtocol.decrypt_initial c fresh_bob fresh_ratchet now p address initial =
        SignalProtocol.decrypt_initial c fresh_bob fresh_ratchet now p address
          { initial with pre_key_id := none }) := by
  constructor
  · intro res p' hres hk
    unfold SignalProtocol.decrypt_initial at hres
    split at hres
    · simp at hres
    · split at hres
      · simp at hres
      · simp only [hk] at hres
        split at hres
        · simp at hres
        · have h2 := congrArg Prod.snd hres
          simp only at h2
          rw [← h2]
          exact alookup_aerase_self _ _
  · intro habs hk
    unfold SignalProtocol.decrypt_initial
    cases hsp : p.signed_pre_key with
    | none => rfl
    | some spk =>
      by_cases hid : spk.id ≠ initial.signed_pre_key_id
      · simp [hk, hid]
      · simp [hk, hid, habs, aerase_of_alookup_none p.pre_keys k habs]

/-- C6 (witness): the amended theorem at the concrete scenario — after
the first call the pool no longer contains id 7, and the second call is
literally the same computation as one referencing no pre-key. -/
theorem decrypt_initial_consumes_pre_key_witness :
    alookup c6Protocol1.pre_keys 7 = none ∧
    SignalProtocol.decrypt_initial toyCrypto [15] [16] 0 c6Protocol1 c6Address c6Initial2 =
      SignalProtocol.decrypt_initial toyCrypto [15] [16] 0 c6Protocol1 c6Address
        { c6Initial2 with pre_key_id := none } :=
  ⟨(decrypt_initial_consumes_pre_key toyCrypto [5] [6] 0 c6Protocol c6Address c6Initial1 7).1
      [99] c6Protocol1 (by decide) rfl,
   (decrypt_initial_consumes_pre_key toyCrypto [15] [16] 0 c6Protocol1 c6Address c6Initial2 7).2
      (by decide) rfl⟩

theorem skipLoop_zero (c : Crypto) (now : Int) (dh_key : Bytes) (i : Nat) (ck : Bytes)
    (sk : List ((Bytes × Nat) × SkippedKey)) : skipLoop c now dh_key i 0 ck sk = (ck, sk) := rfl

theorem skipLoop_one (c : Crypto) (now : Int) (dh_key : Bytes) (i : Nat) (ck : Bytes)
    (sk : List ((Bytes × Nat) × SkippedKey)) :
    skipLoop c now dh_key i 1 ck sk =
      ((derive_message_keys c ck).next_chain_key,
       ainsert sk (dh_key, i)
         { cipher_key := (derive_message_keys c ck).cipher_key
           mac_key := (derive_message_keys c ck).mac_key
           iv := (derive_message_keys c ck).iv
           timestamp := now }) := rfl

/-- C5: an initiator session and a responder session sharing the same
X3DH secret and ratchet key pair; the initiator encrypts messages with
indices 0, 1 and 2; delivering them to the responder's `decrypt` in the
order 0, 2, 1 yields all three original plaintexts — message 2 triggers
skip-and-store of the index-1 key and the late message 1 is decrypted
from the stored skipped key.  Assumes the library AEAD round-trip
contract and the X25519 key-exchange equation for the two ratchet keys. -/
theorem out_of_order_decrypt (c : Crypto)
    (hrt : ∀ k n p, c.aeadDec k n (c.aeadEnc k n p) = some p)
    (secret apriv bpriv f0 f1 f2 : Bytes) (now : Int) (p0 p1 p2 : Bytes)
    (hdh : c.x25519 bpriv (c.x25519Base apriv) = c.x25519 apriv (c.x25519Base bpriv)) :
    let alice0 := SessionState.initialize_alice c secret apriv (c.x25519Base bpriv)
    let e0 := SessionState.encrypt c alice0 p0
    let e1 := SessionState.encrypt c e0.2 p1
    let e2 := SessionState.encrypt c e1.2 p2
    let bob0 := SessionState.initialize_bob secret bpriv
    ∀ m0 m1 m2, e0.1 = .ok m0 → e1.1 = .ok m1 → e2.1 = .ok m2 →
      let r0 := SessionState.decrypt c now f0 bob0 m0
      let r2 := SessionState.decrypt c now f1 r0.2 m2
      let r1 := SessionState.decrypt c now f2 r2.2 m1
      r0.1 = .ok p0 ∧ r2.1 = .ok p2 ∧ r1.1 = .ok p1 := by
  simp only []
  intro m0 m1 m2 h0 h1 h2
  simp only [SessionState.encrypt, SessionState.initialize_alice] at h0 h1 h2
  rw [Except.ok.injEq] at h0 h1 h2
  subst h0
  subst h1
  subst h2
  refine ⟨?_, ?_, ?_⟩ <;>
    simp [SessionState.decrypt, SessionState.dh_ratchet, SessionState.skip_message_keys,
      skipLoop_zero, skipLoop_one, SessionState.initialize_bob, SessionState.initialize_alice,
      SessionState.encrypt, alookup, ainsert, aerase, hdh, hrt, MAX_SKIP, NONCE_SIZE]

/-- C5 (witness): the out-of-order scenario at concrete keys and
plaintexts under the toy primitives — messages 0, 2, 1 decrypt to the
original plaintexts 21, 23, 22. -/
theorem out_of_order_decrypt_witness :
    (SessionState.decrypt toyCrypto 0 [4] (SessionState.initialize_bob [1] [3]) c5M0).1 =
      .ok [21] ∧
    (SessionState.decrypt toyCrypto 0 [5]
      (SessionState.decrypt toyCrypto 0 [4] (SessionState.initialize_bob [1] [3]) c5M0).2
        c5M2).1 = .ok [23] ∧
    (SessionState.decrypt toyCrypto 0 [6]
      (SessionState.decrypt toyCrypto 0 [5]
        (SessionState.decrypt toyCrypto 0 [4] (SessionState.initialize_bob [1] [3]) c5M0).2
          c5M2).2 c5M1).1 = .ok [22] :=
  out_of_order_decrypt toyCrypto toy_aead_roundtrip [1] [2] [3] [4] [5] [6] 0 [21] [22] [23]
    (by decide) c5M0 c5M1 c5M2 (by decide) (by decide) (by decide)
